import Mathlib

/-!
Shallow embedding of the city-aware model resolution and inference pipeline
of the Weather-prediction-with-ML backend (src/backend/main.py), together
with theorems settling the specification claims about it.

City names and keys are modelled as `List Char`; Python floats as `ℚ`
(the claims under scrutiny only involve exact comparisons and the places
where rounding is applied, not binary-float rounding error); the opaque
pickled model objects as abstract values / functions.
-/

namespace WeatherML

/-! ## City key normalization (`ModelManager._normalize_city_name`) -/

/-- The set of characters Python `str.strip()` removes by default. -/
def pySpace (c : Char) : Bool :=
  c == ' ' || c == '\t' || c == '\n' || c == '\r' || c == '\x0b' || c == '\x0c'

/-- Python `str.strip()`: drop leading and trailing whitespace. -/
def pyStrip (s : List Char) : List Char :=
  ((s.dropWhile pySpace).reverse.dropWhile pySpace).reverse

/-- Python `str.lower()` (ASCII fragment, which is all the code relies on). -/
def pyLower (s : List Char) : List Char :=
  s.map Char.toLower

/-- Python `str.replace(' ', '_')`: every space character becomes an underscore. -/
def spacesToUnderscores (s : List Char) : List Char :=
  s.map (fun c => if c == ' ' then '_' else c)

/-- The alias table `city_mapping` in `_normalize_city_name`. -/
def cityAlias (s : List Char) : List Char :=
  if s = "bangalore".toList then "bengaluru".toList
  else if s = "bombay".toList then "mumbai".toList
  else if s = "madras".toList then "chennai".toList
  else s

/-- The reserved key `self.default_city`. -/
def defaultKey : List Char := "default".toList

/-- `ModelManager._normalize_city_name`. `none` models an absent (`None`) city;
`if not city` in Python is true exactly for `None` and the empty string. -/
def normalizeCityName (city : Option (List Char)) : List Char :=
  match city with
  | none => defaultKey
  | some s =>
    if s = [] then defaultKey
    else cityAlias (spacesToUnderscores (pyStrip (pyLower s)))

/-! ## Model bundles and the registry (`ModelManager`) -/

/-- A per-city model dictionary: the Python dict under `self.models[city]`,
whose keys `temperature`, `rain`, `scaler` may each be absent. `M` is the
type of the opaque unpickled model objects. -/
structure Bundle (M : Type) where
  temperature : Option M
  rain : Option M
  scaler : Option M
deriving DecidableEq

/-- The check `all(key in models for key in ['temperature', 'rain', 'scaler'])`. -/
def Bundle.complete {M : Type} (b : Bundle M) : Bool :=
  b.temperature.isSome && b.rain.isSome && b.scaler.isSome

/-- `self.models`: an insertion-ordered mapping from city key to bundle
(Python dicts preserve insertion order, which is the iteration order of
`self.models.keys()`). -/
abbrev Registry (M : Type) := List (List Char × Bundle M)

/-- Python `key in dict` / `dict[key]` combined: the binding for `k`, if any. -/
def lookup {M : Type} (r : Registry M) (k : List Char) : Option (Bundle M) :=
  match r with
  | [] => none
  | (k', b) :: rest => if k' = k then some b else lookup rest k

/-- Python substring test `a in b` on strings. -/
def leadsWith : List Char → List Char → Bool
  | [], _ => true
  | _ :: _, [] => false
  | a :: as, b :: bs => a == b && leadsWith as bs

/-- `occursIn a b` is Python `a in b` for strings: `a` occurs contiguously in `b`. -/
def occursIn (a : List Char) : List Char → Bool
  | [] => leadsWith a []
  | c :: bs => leadsWith a (c :: bs) || occursIn a bs

/-! ### `ModelManager.get_models`, split into its four fallback stages. -/

/-- Stage 1 of `get_models`: exact match, returned only when complete
(an incomplete exact match prints a warning and falls through). -/
def exactStep {M : Type} (r : Registry M) (n : List Char) : Option (Bundle M) :=
  match lookup r n with
  | some b => if b.complete then some b else none
  | none => none

/-- Stage 2 of `get_models`: the `for model_city in self.models.keys()` loop;
a key matches when `normalized_city in model_city or model_city in
normalized_city`; an incomplete matching bundle is skipped and the scan
continues. -/
def substrStep {M : Type} (r : Registry M) (n : List Char) : Option (Bundle M) :=
  match r with
  | [] => none
  | (k, b) :: rest =>
    if occursIn n k || occursIn k n then
      if b.complete then some b else substrStep rest n
    else substrStep rest n

/-- Stage 3 of `get_models`: the `default` bundle, if registered and complete. -/
def defaultStep {M : Type} (r : Registry M) : Option (Bundle M) :=
  match lookup r defaultKey with
  | some b => if b.complete then some b else none
  | none => none

/-- Stage 4 of `get_models`: the last-resort loop returning the first
registered complete bundle. -/
def firstCompleteStep {M : Type} : Registry M → Option (Bundle M)
  | [] => none
  | (_, b) :: rest => if b.complete then some b else firstCompleteStep rest

/-- The `ValueError` message raised when every stage fails. -/
def noModelsMsg : List Char :=
  "No valid models available. Please run: python train_models.py --all".toList

/-- The body of `get_models` after the city name has been normalized. -/
def resolveKey {M : Type} (r : Registry M) (n : List Char) :
    Except (List Char) (Bundle M) :=
  match exactStep r n with
  | some b => .ok b
  | none =>
    match substrStep r n with
    | some b => .ok b
    | none =>
      match defaultStep r with
      | some b => .ok b
      | none =>
        match firstCompleteStep r with
        | some b => .ok b
        | none => .error noModelsMsg

/-- The key `get_models` hands to the fallback chain: `if not city:
city = self.default_city` followed by `self._normalize_city_name(city)`. -/
def requestedKey (city : Option (List Char)) : List Char :=
  match city with
  | none => normalizeCityName (some defaultKey)
  | some s =>
    if s = [] then normalizeCityName (some defaultKey)
    else normalizeCityName (some s)

/-- `ModelManager.get_models`: a `ValueError` is modelled as `.error`. -/
def getModels {M : Type} (r : Registry M) (city : Option (List Char)) :
    Except (List Char) (Bundle M) :=
  resolveKey r (requestedKey city)

/-! ## Registry construction (`ModelManager._load_models`) -/

/-- The registration filter in `_load_models`: a per-city partial bundle is
registered only when all three artifacts are present. -/
def registerComplete {M : Type} (cm : List (List Char × Bundle M)) :
    Registry M :=
  cm.filter (fun p => p.2.complete)

/-- `_load_models`: the default bundle (registered first, with all three
components, exactly when all three default pickles load — `dflt` is `some`
of the three loaded objects in that case) followed by the city bundles
that survived the completeness filter. `cm` is the `city_models` dict of
partial bundles assembled from the directory scan, in which an artifact
whose load failed is simply absent. -/
def buildRegistry {M : Type} (dflt : Option (M × M × M))
    (cm : List (List Char × Bundle M)) : Registry M :=
  (match dflt with
   | some (t, r, s) => [(defaultKey, ⟨some t, some r, some s⟩)]
   | none => []) ++ registerComplete cm

/-! ## Claim-side resolution precedence

Written from the words of the resolution claim, to be compared with
`getModels`: (1) exact match against a registered complete bundle; (2) first
registered key in substring relation with the requested key whose bundle is
complete; (3) the `default` bundle if present and complete; (4) the
first-registered complete bundle; (5) otherwise failure. -/

/-- The resolution precedence exactly as the claim states it, as a chained
choice over the four stages; `none` is the no-models-available failure. -/
def claimResolve {M : Type} (r : Registry M) (n : List Char) :
    Option (Bundle M) :=
  exactStep r n <|>
  ((r.find? (fun p => (occursIn p.1 n || occursIn n p.1) && p.2.complete)).map
    Prod.snd) <|>
  defaultStep r <|>
  ((r.find? (fun p => p.2.complete)).map Prod.snd)

/-! ## Request schema and validation (`WeatherInput`)

Pydantic parses and validates the request body before the endpoint function
runs; floats are modelled as `ℚ`. -/

/-- The `WeatherInput` request schema. -/
structure WeatherInput where
  humidity : ℚ
  pressure : ℚ
  wind_speed : ℚ
  clouds : ℚ
  month : ℤ
  day : ℤ
  city : Option (List Char)
deriving DecidableEq

/-- The pydantic `Field` range constraints of `WeatherInput`, checked field by
field in declaration order; the result lists the names of the offending
fields (pydantic reports a location naming each failing field). -/
def fieldErrors (w : WeatherInput) : List (List Char) :=
  (if 0 ≤ w.humidity ∧ w.humidity ≤ 100 then [] else ["humidity".toList]) ++
  (if 900 ≤ w.pressure ∧ w.pressure ≤ 1100 then [] else ["pressure".toList]) ++
  (if 0 ≤ w.wind_speed ∧ w.wind_speed ≤ 100 then [] else ["wind_speed".toList]) ++
  (if 0 ≤ w.clouds ∧ w.clouds ≤ 100 then [] else ["clouds".toList]) ++
  (if 1 ≤ w.month ∧ w.month ≤ 12 then [] else ["month".toList]) ++
  (if 1 ≤ w.day ∧ w.day ≤ 31 then [] else ["day".toList])

/-! ## Inference (`predict_weather`, lines 455-499) -/

/-- A resolved, complete bundle as used for inference: the opaque scaler,
regressor and classifier become functions on the feature vector. `rainProba`
is `rain_model.predict_proba(...)[0][1]`. -/
structure BundleFns where
  scaler : List ℚ → List ℚ
  temp : List ℚ → ℚ
  rainClass : List ℚ → ℤ
  rainProba : List ℚ → ℚ

/-- The single-row DataFrame built in `predict_weather`, reindexed by
`FEATURE_COLUMNS = ['humidity', 'pressure', 'wind_speed', 'clouds', 'month',
'day']`. -/
def featureVec (w : WeatherInput) : List ℚ :=
  [w.humidity, w.pressure, w.wind_speed, w.clouds, (w.month : ℚ), (w.day : ℚ)]

/-- Line 474: `predicted_rain = "Yes" if rain_class == 1 else "No"`. -/
def rainLabel (c : ℤ) : List Char :=
  if c = 1 then "Yes".toList else "No".toList

/-- The values computed by lines 467-474 of `predict_weather`. -/
structure InferRes where
  rawTemp : ℚ
  rainClassVal : ℤ
  rainProbaVal : ℚ
  rainLabelVal : List Char
deriving DecidableEq

/-- Lines 467-474: scale, run the regressor and the classifier, derive the
label. Pure: nothing is mutated. -/
def infer (m : BundleFns) (w : WeatherInput) : InferRes :=
  let scaled := m.scaler (featureVec w)
  { rawTemp := m.temp scaled
    rainClassVal := m.rainClass scaled
    rainProbaVal := m.rainProba scaled
    rainLabelVal := rainLabel (m.rainClass scaled) }

/-- Python's `round` ties-to-even integer rounding. -/
def roundHalfEven (x : ℚ) : ℤ :=
  if x - ⌊x⌋ < 1/2 then ⌊x⌋
  else if 1/2 < x - ⌊x⌋ then ⌊x⌋ + 1
  else if ⌊x⌋ % 2 = 0 then ⌊x⌋ else ⌊x⌋ + 1

/-- Python `round(x, n)` on the idealized (rational) value. -/
def pyRound (x : ℚ) (n : ℕ) : ℚ :=
  (roundHalfEven (x * 10 ^ n) : ℚ) / 10 ^ n

/-- The `Prediction` row constructed at lines 477-488 (id and timestamp are
assigned by the store and omitted). -/
structure PredRecord where
  city : Option (List Char)
  humidity : ℚ
  pressure : ℚ
  wind_speed : ℚ
  clouds : ℚ
  month : ℤ
  day : ℤ
  predicted_temperature : ℚ
  predicted_rain : List Char
  rain_probability : ℚ
deriving DecidableEq

/-- The record handed to `db.add`: raw inputs and raw (unrounded) outputs. -/
def mkPredRecord (m : BundleFns) (w : WeatherInput) : PredRecord :=
  { city := w.city
    humidity := w.humidity
    pressure := w.pressure
    wind_speed := w.wind_speed
    clouds := w.clouds
    month := w.month
    day := w.day
    predicted_temperature := (infer m w).rawTemp
    predicted_rain := (infer m w).rainLabelVal
    rain_probability := (infer m w).rainProbaVal }

/-- The `WeatherPrediction` response schema. -/
structure WeatherPrediction where
  predicted_temperature : ℚ
  predicted_rain : List Char
  rain_probability : ℚ
deriving DecidableEq

/-- An HTTP error response raised via `HTTPException`, or the pydantic
validation rejection (which FastAPI emits before the endpoint body runs),
carrying the offending field names. -/
inductive ServeError where
  | validation (fields : List (List Char))
  | http (status : ℕ) (detail : List Char)
deriving DecidableEq

/-- The detail string chosen by the generic `except Exception` handler at
lines 507-523: a schema hint when the message mentions a missing column or
`city`, the generic prediction error otherwise. -/
def persistDetail (emsg : List Char) : List Char :=
  if occursIn "no such column".toList (pyLower emsg) ||
     occursIn "city".toList (pyLower emsg) then
    "Database schema error. Please delete predictions.db and restart the server.".toList
  else
    "Prediction error".toList

/-- The body of `predict_weather` given the resolved bundle. `saveOk` is
whether `db.add`/`db.commit` succeeds; when it fails with message `emsg`,
the generic exception handler turns the whole request into an HTTP 500 and
the store keeps its previous contents. On success the response carries the
rounded values and the raw record is appended to the store. -/
def predictWeather (m : BundleFns) (saveOk : Bool) (emsg : List Char)
    (w : WeatherInput) (store : List PredRecord) :
    Except ServeError (WeatherPrediction × List PredRecord) :=
  let res := infer m w
  if saveOk then
    .ok ({ predicted_temperature := pyRound res.rawTemp 2
           predicted_rain := res.rainLabelVal
           rain_probability := pyRound res.rainProbaVal 4 },
         store ++ [mkPredRecord m w])
  else
    .error (.http 500 (persistDetail emsg))

/-- The request pipeline for `POST /predict`: pydantic validation rejects the
request (naming the offending fields) before any model code runs; otherwise
the endpoint body executes. -/
def servePredict (m : BundleFns) (saveOk : Bool) (emsg : List Char)
    (w : WeatherInput) (store : List PredRecord) :
    Except ServeError (WeatherPrediction × List PredRecord) :=
  if fieldErrors w = [] then predictWeather m saveOk emsg w store
  else .error (.validation (fieldErrors w))

/-! ## Prediction store (`/stats` counting and reachable states) -/

/-- `db.query(Prediction).filter(Prediction.predicted_rain == lbl).count()`. -/
def countWhereRain (s : List PredRecord) (lbl : List Char) : ℕ :=
  (s.filter (fun r => decide (r.predicted_rain = lbl))).length

/-- The reachable states of the prediction store: initially empty; a
successful validated prediction appends its record (`db.add`/`db.commit` in
`predict_weather`); `DELETE /history` clears everything. -/
inductive Reachable : List PredRecord → Prop
  | init : Reachable []
  | predict (m : BundleFns) (w : WeatherInput) (s : List PredRecord)
      (hv : fieldErrors w = []) (h : Reachable s) :
      Reachable (s ++ [mkPredRecord m w])
  | clear (s : List PredRecord) (h : Reachable s) : Reachable []

/-! ## Claim-side normalization with whitespace collapsing

Written from the claim's words ("internal whitespace collapsed to a single
separator"), to be compared against `normalizeCityName`. -/

/-- Collapse characters: a maximal run of whitespace becomes one underscore.
The boolean tracks whether the previous character was whitespace. -/
def collapseWsAux : Bool → List Char → List Char
  | _, [] => []
  | prevWs, c :: cs =>
    if pySpace c then
      if prevWs then collapseWsAux true cs
      else '_' :: collapseWsAux true cs
    else c :: collapseWsAux false cs

/-- Collapse every maximal internal whitespace run to a single underscore. -/
def collapseWs (s : List Char) : List Char :=
  collapseWsAux false s

/-- The normalization exactly as the claim describes it: trim, lower-case,
collapse internal whitespace to a single separator, then apply the alias
table. -/
def claimNormalize (city : Option (List Char)) : List Char :=
  match city with
  | none => defaultKey
  | some s =>
    if s = [] then defaultKey
    else cityAlias (collapseWs (pyStrip (pyLower s)))

/-! ## Auxiliary predicates and concrete sample values -/

/-- All six range constraints of `WeatherInput` together. -/
def inRangeAll (w : WeatherInput) : Prop :=
  (0 ≤ w.humidity ∧ w.humidity ≤ 100) ∧
  (900 ≤ w.pressure ∧ w.pressure ≤ 1100) ∧
  (0 ≤ w.wind_speed ∧ w.wind_speed ≤ 100) ∧
  (0 ≤ w.clouds ∧ w.clouds ≤ 100) ∧
  (1 ≤ w.month ∧ w.month ≤ 12) ∧
  (1 ≤ w.day ∧ w.day ≤ 31)

/-- A concrete complete bundle of inference functions: identity scaler,
constant regressor 1013/40 = 25.325, classifier constantly 1, probability
constantly 1/2. -/
def sampleBundle : BundleFns :=
  { scaler := fun v => v
    temp := fun _ => 1013/40
    rainClass := fun _ => 1
    rainProba := fun _ => 1/2 }

/-- The spec's example request: humidity 75, pressure 1010, wind 15,
clouds 60, July 15, city Kolkata. -/
def sampleInput : WeatherInput :=
  { humidity := 75, pressure := 1010, wind_speed := 15, clouds := 60
    month := 7, day := 15, city := some "Kolkata".toList }

/-- A concrete registry over `ℕ`-labelled artifacts: a complete kolkata
bundle registered first, a complete default bundle second. -/
def sampleRegistry : Registry ℕ :=
  [("kolkata".toList, ⟨some 1, some 2, some 3⟩),
   (defaultKey, ⟨some 4, some 5, some 6⟩)]

/-! ## Helper lemmas -/

lemma substrStep_eq_find {M : Type} (r : Registry M) (n : List Char) :
    substrStep r n =
      (r.find? (fun p => (occursIn p.1 n || occursIn n p.1) && p.2.complete)).map
        Prod.snd := by
  induction r with
  | nil => rfl
  | cons p rest ih =>
    obtain ⟨k, b⟩ := p
    cases hnk : occursIn n k <;> cases hkn : occursIn k n <;>
      cases hb : b.complete <;>
        simp [substrStep, List.find?, hnk, hkn, hb, ih]

lemma firstCompleteStep_eq_find {M : Type} (r : Registry M) :
    firstCompleteStep r = (r.find? (fun p => p.2.complete)).map Prod.snd := by
  induction r with
  | nil => rfl
  | cons p rest ih =>
    obtain ⟨k, b⟩ := p
    cases hb : b.complete <;> simp [firstCompleteStep, List.find?, hb, ih]

lemma exactStep_complete {M : Type} {r : Registry M} {n : List Char}
    {b : Bundle M} (h : exactStep r n = some b) : b.complete = true := by
  unfold exactStep at h
  cases hl : lookup r n with
  | none => simp [hl] at h
  | some b' =>
    rw [hl] at h
    by_cases hb : b'.complete = true
    · simp [hb] at h; subst h; exact hb
    · simp [hb] at h

lemma substrStep_complete {M : Type} {r : Registry M} {n : List Char}
    {b : Bundle M} (h : substrStep r n = some b) : b.complete = true := by
  induction r with
  | nil => simp [substrStep] at h
  | cons p rest ih =>
    obtain ⟨k, b'⟩ := p
    unfold substrStep at h
    by_cases h1 : (occursIn n k || occursIn k n) = true
    · rw [if_pos h1] at h
      by_cases hb : b'.complete = true
      · rw [if_pos hb] at h; cases h; exact hb
      · rw [if_neg hb] at h; exact ih h
    · rw [if_neg h1] at h; exact ih h

lemma defaultStep_complete {M : Type} {r : Registry M}
    {b : Bundle M} (h : defaultStep r = some b) : b.complete = true := by
  unfold defaultStep at h
  cases hl : lookup r defaultKey with
  | none => simp [hl] at h
  | some b' =>
    rw [hl] at h
    by_cases hb : b'.complete = true
    · simp [hb] at h; subst h; exact hb
    · simp [hb] at h

lemma firstCompleteStep_complete {M : Type} {r : Registry M}
    {b : Bundle M} (h : firstCompleteStep r = some b) : b.complete = true := by
  induction r with
  | nil => simp [firstCompleteStep] at h
  | cons p rest ih =>
    obtain ⟨k, b'⟩ := p
    unfold firstCompleteStep at h
    by_cases hb : b'.complete = true
    · rw [if_pos hb] at h; cases h; exact hb
    · rw [if_neg hb] at h; exact ih h

lemma occursIn_nil_left (b : List Char) : occursIn [] b = true := by
  induction b with
  | nil => rfl
  | cons c bs ih => simp [occursIn, leadsWith, ih]

lemma substrStep_nil {M : Type} (r : Registry M) :
    substrStep r [] = firstCompleteStep r := by
  induction r with
  | nil => rfl
  | cons p rest ih =>
    obtain ⟨k, b⟩ := p
    simp [substrStep, firstCompleteStep, occursIn_nil_left, ih]

lemma toLower_of_pySpace {c : Char} (h : pySpace c = true) :
    Char.toLower c = c := by
  simp only [pySpace, Bool.or_eq_true, beq_iff_eq] at h
  rcases h with ((((h | h) | h) | h) | h) | h <;> subst h <;> decide

lemma pyStrip_all_space {s : List Char} (h : ∀ c ∈ s, pySpace c = true) :
    pyStrip s = [] := by
  have hd : s.dropWhile pySpace = [] := by
    induction s with
    | nil => rfl
    | cons c cs ih =>
      rw [List.dropWhile_cons]
      rw [h c (by simp)]
      exact ih (fun x hx => h x (by simp [hx]))
  simp [pyStrip, hd]

lemma pyLower_all_space {s : List Char} (h : ∀ c ∈ s, pySpace c = true) :
    ∀ c ∈ pyLower s, pySpace c = true := by
  intro c hc
  simp only [pyLower, List.mem_map] at hc
  obtain ⟨c', hc', rfl⟩ := hc
  rw [toLower_of_pySpace (h c' hc')]
  exact h c' hc'



lemma space_not_mem_spacesToUnderscores (u : List Char) :
    ' ' ∉ spacesToUnderscores u := by
  intro h
  simp only [spacesToUnderscores, List.mem_map] at h
  obtain ⟨c, _, hc⟩ := h
  by_cases h' : (c == ' ') = true
  · rw [if_pos h'] at hc; exact absurd hc (by decide)
  · rw [if_neg h'] at hc; rw [hc] at h'; exact absurd (by decide) h'

lemma cityAlias_no_space {t : List Char} (h : ' ' ∉ t) : ' ' ∉ cityAlias t := by
  unfold cityAlias
  split_ifs <;> first | decide | exact h

lemma cityAlias_eq_self {t : List Char}
    (h : t ∉ ["bangalore".toList, "bombay".toList, "madras".toList]) :
    cityAlias t = t := by
  simp only [List.mem_cons, List.not_mem_nil, or_false, not_or] at h
  obtain ⟨h1, h2, h3⟩ := h
  unfold cityAlias
  rw [if_neg h1, if_neg h2, if_neg h3]

lemma rain_label_cases (m : BundleFns) (w : WeatherInput) :
    (mkPredRecord m w).predicted_rain = "Yes".toList ∨
    (mkPredRecord m w).predicted_rain = "No".toList := by
  by_cases h : m.rainClass (m.scaler (featureVec w)) = 1
  · left; simp [mkPredRecord, infer, rainLabel, h]
  · right; simp [mkPredRecord, infer, rainLabel, h]

lemma reachable_rain_labels {s : List PredRecord} (h : Reachable s) :
    ∀ r ∈ s, r.predicted_rain = "Yes".toList ∨
      r.predicted_rain = "No".toList := by
  induction h with
  | init => intro r hr; cases hr
  | predict m w s hv hs ih =>
    intro r hr
    rw [List.mem_append] at hr
    rcases hr with hr | hr
    · exact ih r hr
    · rw [List.mem_singleton] at hr
      rw [hr]
      exact rain_label_cases m w
  | clear s hs ih => intro r hr; cases hr

lemma count_rain_partition (s : List PredRecord)
    (h : ∀ r ∈ s, r.predicted_rain = "Yes".toList ∨
      r.predicted_rain = "No".toList) :
    countWhereRain s "Yes".toList + countWhereRain s "No".toList = s.length := by
  induction s with
  | nil => rfl
  | cons r rest ih =>
    have hr := h r (List.mem_cons_self r rest)
    have ihr := ih (fun x hx => h x (List.mem_cons_of_mem r hx))
    rcases hr with h1 | h1 <;>
      simp [countWhereRain, List.filter_cons, h1] at ihr ⊢ <;>
      omega



lemma ite_nil_iff (c : Prop) [Decidable c] (nm : List Char) :
    ((if c then ([] : List (List Char)) else [nm]) = []) ↔ c := by
  split_ifs with h
  · simp [h]
  · simp [h]

lemma pyRound_sample : pyRound (1013/40) 2 = 633/25 := by
  have h1 : ((1013:ℚ)/40) * 10 ^ 2 = 5065/2 := by norm_num
  have h2 : ⌊(5065/2 : ℚ)⌋ = 2532 := by norm_num
  unfold pyRound roundHalfEven
  rw [h1, h2]
  rw [if_neg (by norm_num), if_neg (by norm_num), if_pos (by norm_num)]
  norm_num


/-! ## Claim theorems -/


/-- C1: resolution applies exactly the claimed five-stage precedence. -/
theorem c1_resolution_precedence {M : Type} (r : Registry M)
    (city : Option (List Char)) :
    getModels r city =
      match claimResolve r (requestedKey city) with
      | some b => Except.ok b
      | none => Except.error noModelsMsg := by
  unfold getModels claimResolve resolveKey
  rw [← substrStep_eq_find, ← firstCompleteStep_eq_find]
  cases h1 : exactStep r (requestedKey city) <;>
    cases h2 : substrStep r (requestedKey city) <;>
      cases h3 : defaultStep r <;>
        cases h4 : firstCompleteStep r <;>
          simp [h1, h2, h3, h4]

/-- C2: completeness invariant. -/
theorem c2_complete_bundle_invariant {M : Type} :
    (∀ (dflt : Option (M × M × M)) (cm : List (List Char × Bundle M))
       (p : List Char × Bundle M), p ∈ buildRegistry dflt cm →
         p.2.complete = true) ∧
    (∀ (r : Registry M) (city : Option (List Char)) (b : Bundle M),
       getModels r city = Except.ok b → b.complete = true) := by
  constructor
  · intro dflt cm p hp
    unfold buildRegistry at hp
    rw [List.mem_append] at hp
    rcases hp with hp | hp
    · match dflt with
      | none => simp at hp
      | some (t, r, s) =>
        simp at hp
        rw [hp]
        rfl
    · exact (List.mem_filter.mp hp).2
  · intro r city b h
    unfold getModels resolveKey at h
    cases h1 : exactStep r (requestedKey city) with
    | some b' => rw [h1] at h; cases h; exact exactStep_complete h1
    | none =>
      rw [h1] at h
      cases h2 : substrStep r (requestedKey city) with
      | some b' => rw [h2] at h; cases h; exact substrStep_complete h2
      | none =>
        rw [h2] at h
        cases h3 : defaultStep r with
        | some b' => rw [h3] at h; cases h; exact defaultStep_complete h3
        | none =>
          rw [h3] at h
          cases h4 : firstCompleteStep r with
          | some b' => rw [h4] at h; cases h; exact firstCompleteStep_complete h4
          | none => rw [h4] at h; cases h

/-- C9: whitespace-only city. -/
theorem c9_whitespace_city_first_bundle {M : Type} (s : List Char)
    (hne : s ≠ []) (hsp : ∀ c ∈ s, pySpace c = true) (r : Registry M)
    (hempty : lookup r [] = none) (b : Bundle M)
    (hfirst : firstCompleteStep r = some b) :
    normalizeCityName (some s) = [] ∧ getModels r (some s) = Except.ok b := by
  have hkey : normalizeCityName (some s) = [] := by
    simp only [normalizeCityName]
    rw [if_neg hne, pyStrip_all_space (pyLower_all_space hsp)]
    rfl
  refine ⟨hkey, ?_⟩
  have hreq : requestedKey (some s) = [] := by
    simp only [requestedKey]
    rw [if_neg hne]
    exact hkey
  have hex : exactStep r [] = none := by
    unfold exactStep
    rw [hempty]
  unfold getModels
  rw [hreq]
  simp [resolveKey, hex, substrStep_nil, hfirst]


/-- C4. -/
theorem c4_validation_ranges (w : WeatherInput) :
    (fieldErrors w = [] ↔ inRangeAll w) ∧
    (fieldErrors w ≠ [] → ∀ (m : BundleFns) (saveOk : Bool)
        (emsg : List Char) (store : List PredRecord),
      servePredict m saveOk emsg w store =
        Except.error (ServeError.validation (fieldErrors w))) ∧
    (¬(0 ≤ w.humidity ∧ w.humidity ≤ 100) →
      "humidity".toList ∈ fieldErrors w) ∧
    (¬(900 ≤ w.pressure ∧ w.pressure ≤ 1100) →
      "pressure".toList ∈ fieldErrors w) ∧
    (¬(0 ≤ w.wind_speed ∧ w.wind_speed ≤ 100) →
      "wind_speed".toList ∈ fieldErrors w) ∧
    (¬(0 ≤ w.clouds ∧ w.clouds ≤ 100) →
      "clouds".toList ∈ fieldErrors w) ∧
    (¬(1 ≤ w.month ∧ w.month ≤ 12) → "month".toList ∈ fieldErrors w) ∧
    (¬(1 ≤ w.day ∧ w.day ≤ 31) → "day".toList ∈ fieldErrors w) := by
  refine ⟨?_, ?_, ?_, ?_, ?_, ?_, ?_, ?_⟩
  · simp only [fieldErrors, List.append_eq_nil, ite_nil_iff, inRangeAll]
    tauto
  · intro h m sv e st
    unfold servePredict
    rw [if_neg h]
  all_goals intro h
  all_goals simp [fieldErrors, h]



/-- C3 counterexample. -/
theorem c3_collapse_counterexample :
    normalizeCityName (some "a  b".toList) = "a__b".toList ∧
    claimNormalize (some "a  b".toList) = "a_b".toList ∧
    normalizeCityName (some "a  b".toList) ≠
      claimNormalize (some "a  b".toList) :=
  ⟨by decide, by decide, by decide⟩

/-- C3 amended. -/
theorem c3_normalize_amended :
    (normalizeCityName none = defaultKey ∧
     normalizeCityName (some []) = defaultKey) ∧
    normalizeCityName (some "  Kolkata ".toList) =
      normalizeCityName (some "kolkata".toList) ∧
    (normalizeCityName (some "bangalore".toList) = "bengaluru".toList ∧
     normalizeCityName (some "bombay".toList) = "mumbai".toList ∧
     normalizeCityName (some "madras".toList) = "chennai".toList) ∧
    normalizeCityName (some " a  b ".toList) = "a__b".toList ∧
    (∀ s : List Char, ' ' ∉ normalizeCityName (some s)) ∧
    (∀ s : List Char, s ≠ [] →
      spacesToUnderscores (pyStrip (pyLower s)) ∉
        ["bangalore".toList, "bombay".toList, "madras".toList] →
      normalizeCityName (some s) = spacesToUnderscores (pyStrip (pyLower s))) := by
  refine ⟨⟨by decide, by decide⟩, by decide, ⟨by decide, by decide, by decide⟩,
    by decide, ?_, ?_⟩
  · intro s
    simp only [normalizeCityName]
    by_cases h : s = []
    · rw [if_pos h]; decide
    · rw [if_neg h]
      exact cityAlias_no_space (space_not_mem_spacesToUnderscores _)
  · intro s hne hmem
    simp only [normalizeCityName]
    rw [if_neg hne]
    exact cityAlias_eq_self hmem

/-- C3 witness. -/
theorem c3_normalize_amended_witness :
    normalizeCityName (some "New Delhi".toList) =
      spacesToUnderscores (pyStrip (pyLower "New Delhi".toList)) :=
  c3_normalize_amended.2.2.2.2.2 "New Delhi".toList (by decide) (by decide)

/-- C4 witness. -/
theorem c4_validation_ranges_witness :
    ("humidity".toList ∈ fieldErrors { sampleInput with humidity := -1 }) ∧
    ("pressure".toList ∈ fieldErrors { sampleInput with pressure := 1200 }) ∧
    ("month".toList ∈ fieldErrors { sampleInput with month := 13 }) ∧
    ("day".toList ∈ fieldErrors { sampleInput with day := 0 }) ∧
    servePredict sampleBundle true [] { sampleInput with humidity := -1 } [] =
      Except.error (ServeError.validation
        (fieldErrors { sampleInput with humidity := -1 })) :=
  ⟨(c4_validation_ranges _).2.2.1 (by decide),
   (c4_validation_ranges _).2.2.2.1 (by decide),
   (c4_validation_ranges _).2.2.2.2.2.2.1 (by decide),
   (c4_validation_ranges _).2.2.2.2.2.2.2 (by decide),
   (c4_validation_ranges _).2.1 (by decide) sampleBundle true [] []⟩

/-- C5 counterexample. -/
theorem c5_persistence_counterexample :
    (predictWeather sampleBundle false "database is locked".toList
        sampleInput []).toOption = none := rfl

/-- C5 amended. -/
theorem c5_persistence_amended (m : BundleFns) (emsg : List Char)
    (w : WeatherInput) (store : List PredRecord) :
    predictWeather m false emsg w store =
      Except.error (ServeError.http 500 (persistDetail emsg)) := rfl

/-- C6. -/
theorem c6_inference_deterministic (m : BundleFns) (w : WeatherInput)
    (emsg : List Char) (store : List PredRecord) :
    infer m w = infer m w ∧
    (∀ (p : WeatherPrediction) (store' : List PredRecord),
      predictWeather m true emsg w store = Except.ok (p, store') →
      (predictWeather m true emsg w store').toOption.map Prod.fst = some p) := by
  refine ⟨rfl, ?_⟩
  intro p store' h
  show (predictWeather m true emsg w store).toOption.map Prod.fst = some p
  rw [h]
  rfl

/-- C6 witness. -/
theorem c6_inference_deterministic_witness :
    (predictWeather sampleBundle true [] sampleInput
        [mkPredRecord sampleBundle sampleInput]).toOption.map Prod.fst =
      some { predicted_temperature :=
               pyRound (infer sampleBundle sampleInput).rawTemp 2
             predicted_rain := (infer sampleBundle sampleInput).rainLabelVal
             rain_probability :=
               pyRound (infer sampleBundle sampleInput).rainProbaVal 4 } :=
  (c6_inference_deterministic sampleBundle sampleInput [] []).2 _ _ rfl

/-- C7. -/
theorem c7_rounding_boundary (m : BundleFns) (emsg : List Char)
    (w : WeatherInput) (store : List PredRecord) :
    predictWeather m true emsg w store =
      Except.ok ({ predicted_temperature := pyRound (infer m w).rawTemp 2
                   predicted_rain := (infer m w).rainLabelVal
                   rain_probability := pyRound (infer m w).rainProbaVal 4 },
                 store ++ [mkPredRecord m w]) ∧
    (mkPredRecord m w).predicted_temperature = (infer m w).rawTemp ∧
    ((mkPredRecord sampleBundle sampleInput).predicted_temperature =
       1013/40 ∧
     pyRound (mkPredRecord sampleBundle sampleInput).predicted_temperature 2 =
       633/25 ∧
     (1013/40 : ℚ) ≠ 633/25) :=
  ⟨rfl, rfl, rfl, pyRound_sample, by norm_num⟩

/-- C8. -/
theorem c8_rain_count_partition (s : List PredRecord) (h : Reachable s) :
    countWhereRain s "Yes".toList + countWhereRain s "No".toList =
      s.length :=
  count_rain_partition s (reachable_rain_labels h)

/-- C8 witness. -/
theorem c8_rain_count_partition_witness :
    countWhereRain [mkPredRecord sampleBundle sampleInput] "Yes".toList +
      countWhereRain [mkPredRecord sampleBundle sampleInput] "No".toList =
      1 :=
  c8_rain_count_partition _
    (Reachable.predict sampleBundle sampleInput [] (by decide) Reachable.init)

/-- C10. -/
theorem c10_rain_label_iff :
    (∀ c : ℤ, (rainLabel c = "Yes".toList ↔ c = 1) ∧
      (c ≠ 1 → rainLabel c = "No".toList)) ∧
    (∀ (m : BundleFns) (w : WeatherInput),
      (infer m w).rainLabelVal =
        rainLabel (m.rainClass (m.scaler (featureVec w)))) := by
  constructor
  · intro c
    constructor
    · constructor
      · intro h
        by_contra hc
        simp only [rainLabel, if_neg hc] at h
        exact absurd h (by decide)
      · intro h; simp only [rainLabel, if_pos h]
    · intro h; simp only [rainLabel, if_neg h]
  · intro m w; rfl

/-- C10 witness. -/
theorem c10_rain_label_iff_witness : rainLabel 5 = "No".toList :=
  (c10_rain_label_iff.1 5).2 (by decide)

/-- C2 witness. -/
theorem c2_complete_bundle_invariant_witness :
    Bundle.complete (⟨some 1, some 2, some 3⟩ : Bundle ℕ) = true ∧
    Bundle.complete (⟨some 4, some 5, some 6⟩ : Bundle ℕ) = true :=
  ⟨c2_complete_bundle_invariant.1 (some (7, 8, 9))
      [("kolkata".toList, ⟨some 1, some 2, some 3⟩)]
      ("kolkata".toList, ⟨some 1, some 2, some 3⟩) (by decide),
   c2_complete_bundle_invariant.2 sampleRegistry (some defaultKey)
      ⟨some 4, some 5, some 6⟩ rfl⟩

/-- C9 witness. -/
theorem c9_whitespace_city_first_bundle_witness :
    normalizeCityName (some "   ".toList) = [] ∧
    getModels sampleRegistry (some "   ".toList) =
      Except.ok ⟨some 1, some 2, some 3⟩ :=
  c9_whitespace_city_first_bundle "   ".toList (by decide) (by decide)
    sampleRegistry (by decide) ⟨some 1, some 2, some 3⟩ (by decide)


end WeatherML
